import Mathlib

/-!
Verification of the Switchboard arena-matchmaking settlement function
(`src/switchboard-function/src/main.rs`) against its specification.

Machine integers (`u32`, `u8`) are modelled as `Nat` with explicit bounds;
the checked u32 arithmetic of the Rust build (overflow panics) is modelled
by returning `none`. The Gramine entropy source is modelled as a byte
stream (`List Nat`) that `generate_randomness` consumes from the front;
a stream too short to serve a 4-byte read models an entropy failure,
which the code turns into a fatal abort (`none`).
-/

/-- 2^32, the modulus of Rust `u32`. -/
def U32_MOD : Nat := 4294967296

/-- 4-byte little-endian encoding of a 32-bit value
(Rust `u32::to_le_bytes`). -/
def u32_to_le_bytes (v : Nat) : List Nat :=
  [v % 256, v / 256 % 256, v / 65536 % 256, v / 16777216 % 256]

/-- Little-endian decoding of 4 bytes into a 32-bit value
(the `bytemuck::cast_slice` view of `[u8; 4]` as `u32` on a
little-endian target). -/
def le_bytes_to_u32 (bs : List Nat) : Nat :=
  match bs with
  | [b0, b1, b2, b3] => b0 + 256 * b1 + 65536 * b2 + 16777216 * b3
  | _ => 0

/-- `fn generate_randomness(min: u32, max: u32) -> u32` of `main.rs`:

* `min == max` returns `min` without touching the entropy source;
* `min > max` recurses with the bounds swapped;
* otherwise `window = (max + 1) - min` is computed in u32 arithmetic
  (the addition `max + 1` panics on overflow, modelled as `none`),
  4 bytes are read from Gramine (`none` if the stream cannot serve
  them, modelling the fatal `expect`), cast to a `u32`, and
  `(raw % window) + min` is returned together with the rest of the
  entropy stream. -/
def generate_randomness (min max : Nat) (entropy : List Nat) :
    Option (Nat × List Nat) :=
  if min = max then
    some (min, entropy)
  else if min > max then
    generate_randomness max min entropy
  else if max + 1 ≥ U32_MOD then
    none
  else if entropy.length < 4 then
    none
  else
    let window := (max + 1) - min
    let raw := le_bytes_to_u32 (entropy.take 4)
    some ((raw % window) + min, entropy.drop 4)
termination_by (if max < min then 1 else 0)
decreasing_by simp_all; omega

/-- Solana account metadata: a pubkey (opaque, modelled as `Nat`) with
its writable and signer flags. -/
structure AccountMeta where
  pubkey : Nat
  is_writable : Bool
  is_signer : Bool
deriving Repr, DecidableEq

/-- `AccountMeta::new(pubkey, is_signer)`: a writable account. -/
def AccountMeta.new (pubkey : Nat) (is_signer : Bool) : AccountMeta :=
  { pubkey := pubkey, is_writable := true, is_signer := is_signer }

/-- `AccountMeta::new_readonly(pubkey, is_signer)`: a read-only account. -/
def AccountMeta.new_readonly (pubkey : Nat) (is_signer : Bool) : AccountMeta :=
  { pubkey := pubkey, is_writable := false, is_signer := is_signer }

/-- A Solana instruction: program id, ordered flagged account list,
and raw data bytes. -/
structure Instruction where
  program_id : Nat
  accounts : List AccountMeta
  data : List Nat
deriving Repr, DecidableEq

/-- Modelled from the spec: `RequestParameters` — the decoded
`ContainerParams` record (its `params` module is outside the sources);
the fields are exactly those `main.rs` reads from it: the target
program id, the account identifiers (user, realm, user account,
subject spaceship, five opponent spaceships) and the one-byte
faction tag. -/
structure ContainerParams where
  program_id : Nat
  user : Nat
  realm_pda : Nat
  user_account_pda : Nat
  spaceship_pda : Nat
  opponent_spaceship_1_pda : Nat
  opponent_spaceship_2_pda : Nat
  opponent_spaceship_3_pda : Nat
  opponent_spaceship_4_pda : Nat
  opponent_spaceship_5_pda : Nat
  faction : Nat
deriving Repr, DecidableEq

/-- The runner context used by `main`: the enclave (Gramine) signer,
the switchboard function identity and the function-request identity
(already unwrapped, as `main.rs` does). -/
structure FunctionRunner where
  signer : Nat
  function : Nat
  function_request_key : Nat
deriving Repr, DecidableEq

/-- Modelled from the spec: `get_ixn_discriminator` of the switchboard
SDK, the protocol-defined 8-byte Anchor selector computed from the
operation name (first 8 bytes of sha256 of `global:<name>`); treated as
a protocol constant table with the one entry this program uses. -/
def get_ixn_discriminator (name : String) : List Nat :=
  if name = "arena_matchmaking_settle" then
    [86, 221, 134, 63, 62, 148, 27, 38]
  else
    [0, 0, 0, 0, 0, 0, 0, 0]

/-- The settlement instruction data assembled in `main`:
discriminator, then the random result as 4 little-endian bytes,
then the faction byte. -/
def settle_ixn_data (random_result faction : Nat) : List Nat :=
  get_ixn_discriminator "arena_matchmaking_settle"
    ++ u32_to_le_bytes random_result ++ [faction]

/-- The `settle_ixn` instruction built in `main`: the target program id
from the params, the 13-byte data, and the fixed 12-account list with
its writable/signer flags. -/
def settle_ixn (runner : FunctionRunner) (params : ContainerParams)
    (random_result : Nat) : Instruction :=
  { program_id := params.program_id
  , data := settle_ixn_data random_result params.faction
  , accounts :=
      [ AccountMeta.new_readonly runner.signer true
      , AccountMeta.new_readonly params.user false
      , AccountMeta.new params.realm_pda false
      , AccountMeta.new_readonly params.user_account_pda false
      , AccountMeta.new params.spaceship_pda false
      , AccountMeta.new_readonly runner.function false
      , AccountMeta.new_readonly runner.function_request_key false
      , AccountMeta.new params.opponent_spaceship_1_pda false
      , AccountMeta.new params.opponent_spaceship_2_pda false
      , AccountMeta.new params.opponent_spaceship_3_pda false
      , AccountMeta.new params.opponent_spaceship_4_pda false
      , AccountMeta.new params.opponent_spaceship_5_pda false
      ] }

/-- The opaque pubkey of the compute-budget program
(`solana_sdk::compute_budget::id()`). -/
def compute_budget_program_id : Nat := 0

/-- The constant compute-budget instruction built in `main`:
`ComputeBudgetInstruction::SetComputeUnitLimit(1_200_000)` serialized
with borsh (variant tag 2 followed by the little-endian limit), with an
empty account list. -/
def increase_compute_budget_ix : Instruction :=
  { program_id := compute_budget_program_id
  , accounts := []
  , data := [2] ++ u32_to_le_bytes 1200000 }

/-- Observable effects of one run of `main`: the payloads handed to
`runner.emit` (attempted calls), the codes handed to
`runner.emit_error`, and what is left of the entropy stream. -/
structure MainTrace where
  emitCalls : List (List Instruction)
  errorCalls : List Nat
  entropyRemaining : List Nat
deriving Repr, DecidableEq

namespace SwitchboardFunction

/-- The `main` orchestration of `main.rs`, as a function of its
external inputs: the runner context, the result of
`ContainerParams::decode` on the request blob, the entropy stream and
whether the host emission channel accepts the payload. `none` models a
process abort (panic). On decode failure it emits error code 1 and
returns; otherwise it draws the random result over `[1, 100000]`,
builds the settlement and compute-budget instructions, emits
`[increase_compute_budget_ix, settle_ixn]` and, if that emission fails,
emits error code 3. -/
def main (runner : FunctionRunner)
    (decoded : Except Unit ContainerParams)
    (entropy : List Nat) (emitOk : Bool) : Option MainTrace :=
  match decoded with
  | .error _ =>
      some { emitCalls := [], errorCalls := [1], entropyRemaining := entropy }
  | .ok params =>
      match generate_randomness 1 100000 entropy with
      | none => none
      | some (random_result, entropyLeft) =>
          let ixs := [increase_compute_budget_ix,
                      settle_ixn runner params random_result]
          if emitOk then
            some { emitCalls := [ixs], errorCalls := []
                 , entropyRemaining := entropyLeft }
          else
            some { emitCalls := [ixs], errorCalls := [3]
                 , entropyRemaining := entropyLeft }

end SwitchboardFunction

example : generate_randomness 100 100 [9, 9, 9, 9] = some (100, [9, 9, 9, 9]) := by
  simp [generate_randomness]

example : generate_randomness 0 9 [7, 0, 0, 0] = some (7, []) := by
  simp [generate_randomness, le_bytes_to_u32, U32_MOD]

/-- Unfolding of `generate_randomness` in the proper-range case:
for `min < max` with no u32 overflow in `max + 1` and at least 4 bytes
of entropy on hand, it consumes exactly 4 bytes and returns
`(raw % window) + min`. -/
lemma generate_randomness_spec_lt (min max : Nat) (entropy : List Nat)
    (hlt : min < max) (hmax : max + 1 < U32_MOD)
    (hlen : 4 ≤ entropy.length) :
    generate_randomness min max entropy =
      some (le_bytes_to_u32 (entropy.take 4) % ((max + 1) - min) + min,
            entropy.drop 4) := by
  rw [generate_randomness]
  rw [if_neg (by omega), if_neg (by omega), if_neg (by omega),
    if_neg (by omega)]

/-- Unfolding of `generate_randomness` in the degenerate equal-bounds
case: `min` is returned and the entropy stream is untouched. -/
lemma generate_randomness_spec_eq (k : Nat) (entropy : List Nat) :
    generate_randomness k k entropy = some (k, entropy) := by
  rw [generate_randomness]
  simp

/-- The 4-byte little-endian encoding decodes back to the value for any
32-bit value. -/
lemma u32_le_roundtrip (v : Nat) (hv : v < 4294967296) :
    le_bytes_to_u32 (u32_to_le_bytes v) = v := by
  simp only [u32_to_le_bytes, le_bytes_to_u32]
  omega

/-- Bytes 8..11 of the settlement instruction data are exactly the
little-endian encoding of the random result. -/
lemma settle_ixn_data_drop8 (v tag : Nat) :
    ((settle_ixn_data v tag).drop 8).take 4 = u32_to_le_bytes v := by
  simp [settle_ixn_data, get_ixn_discriminator, u32_to_le_bytes]

/-- **C3** (amended). For every pair `min ≤ max` — excluding the
overflowing corner `min < max = u32::MAX`, and given at least 4 bytes
of entropy when a draw is needed — `draw(min, max)` returns a value `v`
with `min ≤ v ≤ max`. -/
theorem generate_randomness_in_bounds (min max : Nat) (entropy : List Nat)
    (hle : min ≤ max)
    (hok : min = max ∨ (max + 1 < U32_MOD ∧ 4 ≤ entropy.length)) :
    ∃ v rest, generate_randomness min max entropy = some (v, rest) ∧
      min ≤ v ∧ v ≤ max := by
  rcases hok with heq | ⟨hmax, hlen⟩
  · subst heq
    exact ⟨min, entropy, generate_randomness_spec_eq min entropy, le_refl _, le_refl _⟩
  · rcases Nat.eq_or_lt_of_le hle with heq | hlt
    · subst heq
      exact ⟨min, entropy, generate_randomness_spec_eq min entropy, le_refl _, le_refl _⟩
    · refine ⟨le_bytes_to_u32 (entropy.take 4) % ((max + 1) - min) + min,
        entropy.drop 4,
        generate_randomness_spec_lt min max entropy hlt hmax hlen, ?_, ?_⟩
      · omega
      · have hwin : 0 < (max + 1) - min := by omega
        have := Nat.mod_lt (le_bytes_to_u32 (entropy.take 4)) hwin
        omega

/-- **C3** witness: the amended claim at `min = 100`, `max = 200` with a
concrete 4-byte entropy stream. -/
theorem generate_randomness_in_bounds_witness :
    (100 : Nat) ≤ 200 ∧
    ∃ v rest, generate_randomness 100 200 [10, 0, 0, 0] = some (v, rest) ∧
      100 ≤ v ∧ v ≤ 200 :=
  ⟨by omega,
   generate_randomness_in_bounds 100 200 [10, 0, 0, 0] (by omega)
     (Or.inr ⟨by norm_num [U32_MOD], by simp⟩)⟩

/-- **C3** counterexample: at `min = 7 ≤ max = u32::MAX` (a valid u32
pair) the computation of `max + 1` overflows u32, so the draw panics
(`none`) instead of returning a value in `[min, max]`. -/
theorem generate_randomness_in_bounds_cex :
    (7 : Nat) ≤ 4294967295 ∧
    generate_randomness 7 4294967295 [0, 0, 0, 0] = none := by
  constructor
  · omega
  · rw [generate_randomness]
    simp [U32_MOD]

/-- **C4** (amended). For every `min < max` such that `max + 1` does not
overflow u32 and 4 bytes of entropy are available, `draw(min, max)`
computes `window = (max + 1) - min`, reads exactly 4 bytes from the
entropy source, interprets them as a little-endian unsigned 32-bit
integer `raw`, and returns `(raw % window) + min`. -/
theorem generate_randomness_formula (min max : Nat) (entropy : List Nat)
    (hlt : min < max) (hmax : max + 1 < U32_MOD)
    (hlen : 4 ≤ entropy.length) :
    generate_randomness min max entropy =
      some (le_bytes_to_u32 (entropy.take 4) % ((max + 1) - min) + min,
            entropy.drop 4) :=
  generate_randomness_spec_lt min max entropy hlt hmax hlen

/-- **C4** witness: the formula at `min = 3`, `max = 12` with entropy
`[200, 1, 0, 0]` (`raw = 456`, `window = 10`, result `456 % 10 + 3 = 9`). -/
theorem generate_randomness_formula_witness :
    (3 : Nat) < 12 ∧ (12 : Nat) + 1 < U32_MOD ∧
    4 ≤ ([200, 1, 0, 0] : List Nat).length ∧
    generate_randomness 3 12 [200, 1, 0, 0] =
      some (le_bytes_to_u32 ([200, 1, 0, 0].take 4) % ((12 + 1) - 3) + 3,
            [200, 1, 0, 0].drop 4) :=
  ⟨by omega, by norm_num [U32_MOD], by simp,
   generate_randomness_formula 3 12 [200, 1, 0, 0] (by omega)
     (by norm_num [U32_MOD]) (by simp)⟩

/-- **C4** counterexample: at `min = 1 < max = u32::MAX` the window
computation `(max + 1) - min` overflows u32, so the draw reads no
entropy and returns nothing (panic) rather than `(raw % window) + min`. -/
theorem generate_randomness_formula_cex :
    (1 : Nat) < 4294967295 ∧
    generate_randomness 1 4294967295 [0, 0, 0, 0] = none := by
  constructor
  · omega
  · rw [generate_randomness]
    simp [U32_MOD]

/-- **C5**. For every pair with `min > max` and every entropy stream,
`draw(min, max)` equals `draw(max, min)`: the bounds act as an
unordered pair, never an error. -/
theorem generate_randomness_swap (min max : Nat) (entropy : List Nat)
    (h : max < min) :
    generate_randomness min max entropy =
      generate_randomness max min entropy := by
  rw [generate_randomness]
  rw [if_neg (by omega), if_pos (by omega)]

/-- **C5** witness: swap symmetry at the spec's scenario `draw(100, 50)`. -/
theorem generate_randomness_swap_witness :
    (50 : Nat) < 100 ∧
    generate_randomness 100 50 [1, 2, 3, 4] =
      generate_randomness 50 100 [1, 2, 3, 4] :=
  ⟨by omega, generate_randomness_swap 100 50 [1, 2, 3, 4] (by omega)⟩

/-- **C6**. For every `k` and every entropy stream, `draw(k, k)` returns
`k` and leaves the entropy stream untouched (no entropy consumed). -/
theorem generate_randomness_degenerate (k : Nat) (entropy : List Nat) :
    generate_randomness k k entropy = some (k, entropy) :=
  generate_randomness_spec_eq k entropy

/-- **C10**. For every `min < u32::MAX`, taking `max = u32::MAX` makes
the window computation `(max + 1) - min` overflow u32, so
`draw(min, max)` panics (`none`) for every entropy stream: the
generator is not total over ordered u32 bound pairs. -/
theorem generate_randomness_overflow (min : Nat) (entropy : List Nat)
    (h : min < U32_MOD - 1) :
    generate_randomness min (U32_MOD - 1) entropy = none := by
  rw [generate_randomness]
  rw [if_neg (by omega), if_neg (by omega), if_pos (by omega)]

/-- **C10** witness: the overflow panic at `min = 2`, `max = u32::MAX`. -/
theorem generate_randomness_overflow_witness :
    (2 : Nat) < U32_MOD - 1 ∧
    generate_randomness 2 (U32_MOD - 1) [0, 0, 0, 0] = none :=
  ⟨by norm_num [U32_MOD],
   generate_randomness_overflow 2 [0, 0, 0, 0] (by norm_num [U32_MOD])⟩

/-- **C1**. For every request, the settlement instruction has exactly 12
accounts in the fixed positional order (enclave signer, user, realm,
user account, subject spaceship, function identity, request identity,
then the 5 opponent spaceships), where positions 3, 5 and 8–12 are
writable and no others, and position 1 is the sole signer. -/
theorem settle_ixn_account_schema (runner : FunctionRunner)
    (params : ContainerParams) (v : Nat) :
    (settle_ixn runner params v).accounts.length = 12 ∧
    (settle_ixn runner params v).accounts.map AccountMeta.pubkey =
      [runner.signer, params.user, params.realm_pda,
       params.user_account_pda, params.spaceship_pda, runner.function,
       runner.function_request_key, params.opponent_spaceship_1_pda,
       params.opponent_spaceship_2_pda, params.opponent_spaceship_3_pda,
       params.opponent_spaceship_4_pda, params.opponent_spaceship_5_pda] ∧
    (settle_ixn runner params v).accounts.map AccountMeta.is_writable =
      [false, false, true, false, true, false, false,
       true, true, true, true, true] ∧
    (settle_ixn runner params v).accounts.map AccountMeta.is_signer =
      [true, false, false, false, false, false, false,
       false, false, false, false, false] := by
  refine ⟨rfl, ?_, ?_, ?_⟩ <;>
    simp [settle_ixn, AccountMeta.new, AccountMeta.new_readonly]

/-- **C2**. The settlement instruction data is exactly
`discriminator ++ le_bytes(value) ++ [tag]` with an 8-byte
discriminator, so its total length is 13 bytes, and decoding the last
5 bytes recovers `value` (little-endian u32) and `tag` exactly. -/
theorem settle_ixn_data_layout (v tag : Nat) (hv : v < U32_MOD) :
    settle_ixn_data v tag =
      get_ixn_discriminator "arena_matchmaking_settle"
        ++ u32_to_le_bytes v ++ [tag] ∧
    (settle_ixn_data v tag).length = 13 ∧
    le_bytes_to_u32 (((settle_ixn_data v tag).drop 8).take 4) = v ∧
    (settle_ixn_data v tag).drop 12 = [tag] := by
  have hv' : v < 4294967296 := by simpa [U32_MOD] using hv
  refine ⟨rfl, ?_, ?_, ?_⟩
  · simp [settle_ixn_data, get_ixn_discriminator, u32_to_le_bytes]
  · rw [settle_ixn_data_drop8]
    exact u32_le_roundtrip v hv'
  · simp [settle_ixn_data, get_ixn_discriminator, u32_to_le_bytes]

/-- **C2** witness: the spec's scenario `value = 42, tag = 1`, whose
last 5 data bytes are `[42, 0, 0, 0, 1]`. -/
theorem settle_ixn_data_layout_witness :
    (42 : Nat) < U32_MOD ∧
    (settle_ixn_data 42 1 =
      get_ixn_discriminator "arena_matchmaking_settle"
        ++ u32_to_le_bytes 42 ++ [1] ∧
    (settle_ixn_data 42 1).length = 13 ∧
    le_bytes_to_u32 (((settle_ixn_data 42 1).drop 8).take 4) = 42 ∧
    (settle_ixn_data 42 1).drop 12 = [1]) :=
  ⟨by norm_num [U32_MOD], settle_ixn_data_layout 42 1 (by norm_num [U32_MOD])⟩

/-- **C7**. For every invocation whose parameter decode fails, `main`
emits error code 1 via exactly one error-signal call and terminates:
no emission of instructions is attempted and the entropy source is not
read (no partial processing). -/
theorem decode_failure_emits_error_one (runner : FunctionRunner)
    (entropy : List Nat) (emitOk : Bool) :
    SwitchboardFunction.main runner (Except.error ()) entropy emitOk =
      some { emitCalls := [], errorCalls := [1]
           , entropyRemaining := entropy } :=
  rfl

/-- Unfolding of the success path of `main`: with parameters decoded
and 4 bytes of entropy on hand, the draw over `[1, 100000]` succeeds
and `main` attempts exactly one emission of
`[increase_compute_budget_ix, settle_ixn]`, signalling error code 3
exactly when that emission fails. -/
lemma main_success_path (runner : FunctionRunner)
    (params : ContainerParams) (entropy : List Nat) (emitOk : Bool)
    (hlen : 4 ≤ entropy.length) :
    ∃ v, generate_randomness 1 100000 entropy = some (v, entropy.drop 4) ∧
      v = le_bytes_to_u32 (entropy.take 4) % 100000 + 1 ∧
      SwitchboardFunction.main runner (Except.ok params) entropy emitOk =
        some { emitCalls :=
                 [[increase_compute_budget_ix, settle_ixn runner params v]]
             , errorCalls := if emitOk then [] else [3]
             , entropyRemaining := entropy.drop 4 } := by
  have hdraw := generate_randomness_spec_lt 1 100000 entropy
    (by omega) (by norm_num [U32_MOD]) hlen
  refine ⟨le_bytes_to_u32 (entropy.take 4) % ((100000 + 1) - 1) + 1,
    hdraw, by norm_num, ?_⟩
  rw [SwitchboardFunction.main]
  rw [hdraw]
  cases emitOk <;> simp

/-- **C8**. On the success path `main` hands the emission channel the
ordered two-element list `[increase_compute_budget_ix, settle_ixn]`
with the compute-budget instruction first; error code 3 is signalled
exactly when that emission fails, after the payload was fully built. -/
theorem success_path_emission (runner : FunctionRunner)
    (params : ContainerParams) (entropy : List Nat) (emitOk : Bool)
    (hlen : 4 ≤ entropy.length) :
    ∃ v, generate_randomness 1 100000 entropy = some (v, entropy.drop 4) ∧
      SwitchboardFunction.main runner (Except.ok params) entropy emitOk =
        some { emitCalls :=
                 [[increase_compute_budget_ix, settle_ixn runner params v]]
             , errorCalls := if emitOk then [] else [3]
             , entropyRemaining := entropy.drop 4 } := by
  obtain ⟨v, hdraw, _, hmain⟩ :=
    main_success_path runner params entropy emitOk hlen
  exact ⟨v, hdraw, hmain⟩

/-- **C8** witness: a concrete run (decode succeeded, entropy
`[5, 0, 0, 0]`, emission accepted). -/
theorem success_path_emission_witness :
    4 ≤ ([5, 0, 0, 0] : List Nat).length ∧
    ∃ v, generate_randomness 1 100000 [5, 0, 0, 0] =
           some (v, ([5, 0, 0, 0] : List Nat).drop 4) ∧
      SwitchboardFunction.main ⟨10, 11, 12⟩
          (Except.ok ⟨20, 21, 22, 23, 24, 25, 26, 27, 28, 29, 1⟩)
          [5, 0, 0, 0] true =
        some { emitCalls :=
                 [[increase_compute_budget_ix,
                   settle_ixn ⟨10, 11, 12⟩
                     ⟨20, 21, 22, 23, 24, 25, 26, 27, 28, 29, 1⟩ v]]
             , errorCalls := if true then [] else [3]
             , entropyRemaining := ([5, 0, 0, 0] : List Nat).drop 4 } :=
  ⟨by simp,
   success_path_emission ⟨10, 11, 12⟩
     ⟨20, 21, 22, 23, 24, 25, 26, 27, 28, 29, 1⟩ [5, 0, 0, 0] true (by simp)⟩

/-- **C9**. On every successful invocation, `main` draws with the fixed
bounds `min = 1`, `max = 100000`, so the 32-bit value encoded at bytes
8..11 of the settlement instruction data always lies in `[1, 100000]`. -/
theorem settle_value_in_range (runner : FunctionRunner)
    (params : ContainerParams) (entropy : List Nat) (emitOk : Bool)
    (hlen : 4 ≤ entropy.length) :
    ∃ trace v,
      SwitchboardFunction.main runner (Except.ok params) entropy emitOk =
        some trace ∧
      trace.emitCalls =
        [[increase_compute_budget_ix, settle_ixn runner params v]] ∧
      1 ≤ v ∧ v ≤ 100000 ∧
      le_bytes_to_u32
        (((settle_ixn runner params v).data.drop 8).take 4) = v := by
  obtain ⟨v, _, hv, hmain⟩ :=
    main_success_path runner params entropy emitOk hlen
  have hlo : 1 ≤ v := by omega
  have hhi : v ≤ 100000 := by
    have := Nat.mod_lt (le_bytes_to_u32 (entropy.take 4))
      (show 0 < 100000 by omega)
    omega
  refine ⟨_, v, hmain, rfl, hlo, hhi, ?_⟩
  show le_bytes_to_u32 (((settle_ixn_data v params.faction).drop 8).take 4) = v
  rw [settle_ixn_data_drop8]
  exact u32_le_roundtrip v (by omega)

/-- **C9** witness: the range invariant at a concrete run with entropy
`[7, 1, 0, 0]`. -/
theorem settle_value_in_range_witness :
    4 ≤ ([7, 1, 0, 0] : List Nat).length ∧
    ∃ trace v,
      SwitchboardFunction.main ⟨10, 11, 12⟩
          (Except.ok ⟨20, 21, 22, 23, 24, 25, 26, 27, 28, 29, 2⟩)
          [7, 1, 0, 0] false =
        some trace ∧
      trace.emitCalls =
        [[increase_compute_budget_ix,
          settle_ixn ⟨10, 11, 12⟩
            ⟨20, 21, 22, 23, 24, 25, 26, 27, 28, 29, 2⟩ v]] ∧
      1 ≤ v ∧ v ≤ 100000 ∧
      le_bytes_to_u32
        (((settle_ixn ⟨10, 11, 12⟩
            ⟨20, 21, 22, 23, 24, 25, 26, 27, 28, 29, 2⟩ v).data.drop 8).take 4)
        = v :=
  ⟨by simp,
   settle_value_in_range ⟨10, 11, 12⟩
     ⟨20, 21, 22, 23, 24, 25, 26, 27, 28, 29, 2⟩ [7, 1, 0, 0] false (by simp)⟩
